/-
Verification of the fundamentals-to-valuation pipeline of the
`ai-hedge-fund` repository: a shallow embedding in Lean 4 of
  * `src/logic/rules.py`        (gate evaluator: quality_pass, mos_pass)
  * `src/logic/valuation.py`    (DCF-lite valuation: dcf_lite)
  * `src/data/fundamentals.py`  (metrics engine, CAGR, fundamentals cache)
  * `src/data/alpha_vantage.py` (fetcher: retry loop, throttle handling)
together with theorems settling the specification claims about them.

Modelling conventions:
  * Python `float` values are modelled as `ℚ` where the code performs only
    field arithmetic (valuation, rules, cache timestamps), and as `ℝ` where
    the code takes real powers (the CAGR computation and the metrics engine
    built on it).  `Optional[float]` becomes `Option ℚ` / `Option ℝ`.
  * A Python dict of metrics becomes a structure whose fields are the keys
    the consuming function reads; a key that may be absent or `None` is an
    `Option` field with `none` for both (Python `dict.get` conflates them).
  * Python truthiness of an `Optional[float]` (`if x:`) is `x ≠ None and
    x ≠ 0`, embedded by the `truthy` predicates below.
-/
import Mathlib

set_option autoImplicit false

namespace HedgeFund

/-! ## Gate evaluator (`src/logic/rules.py`) -/

/-- The verdict dict `{"pass": ok, "reasons": reasons}` returned by
`quality_pass` and `mos_pass`. -/
structure GateVerdict where
  pass : Bool
  reasons : List String
  deriving Repr, DecidableEq

/-- The threshold mapping; field values of `DEFAULT_THRESHOLDS` below are the
dict literal in `rules.py`. -/
structure Thresholds where
  ROIC_min : ℚ
  ROE_min : ℚ
  FCFMargin_min : ℚ
  NetDebtToEBITDA_max : ℚ
  InterestCoverage_min : ℚ
  PB_max : ℚ
  PE_max : ℚ
  MOS_upside_min : ℚ
  deriving Repr, DecidableEq

def DEFAULT_THRESHOLDS : Thresholds :=
  { ROIC_min := 12/100
    ROE_min := 12/100
    FCFMargin_min := 5/100
    NetDebtToEBITDA_max := 25/10
    InterestCoverage_min := 4
    PB_max := 5
    PE_max := 40
    MOS_upside_min := 50 }

/-- Python fixed-point formatting `f"{q:.d f}"` of a rational: round to `d`
decimal places and print with exactly `d` fractional digits.  (Ties, which do
not arise at the thresholds used, are rounded up rather than half-even.) -/
def fmtFixed (d : ℕ) (q : ℚ) : String :=
  let m : ℤ := round (q * (10 : ℚ) ^ d)
  let sign := if m < 0 then "-" else ""
  let n := m.natAbs
  let frac := toString (n % 10 ^ d)
  let pad := String.mk (List.replicate (d - frac.length) '0')
  sign ++ toString (n / 10 ^ d) ++ "." ++ pad ++ frac

/-- Python `str()` of a float threshold, as used in the margin-of-safety
message; exact for values that are whole numbers (e.g. `50.0`), rendered with
one decimal otherwise. -/
def pyFloatStr (q : ℚ) : String :=
  if q.den = 1 then toString q.num ++ ".0" else fmtFixed 1 q

/-- The keys of the metrics dict that `quality_pass` / `mos_pass` read. -/
structure RulesMetrics where
  ROIC : Option ℚ
  ROE : Option ℚ
  FCFMargin : Option ℚ
  EBITDA : Option ℚ
  NetDebt : Option ℚ
  InterestCoverage : Option ℚ
  PE : Option ℚ
  PB : Option ℚ
  deriving Repr, DecidableEq

/-- The metrics dict with every key the gates read absent/`None`. -/
def nullRulesMetrics : RulesMetrics :=
  { ROIC := none, ROE := none, FCFMargin := none, EBITDA := none,
    NetDebt := none, InterestCoverage := none, PE := none, PB := none }

/-- The inner `check(cond, msg)` closure of `quality_pass`: on a failed
condition it clears the `ok` flag and appends the message. -/
def check (st : Bool × List String) (cond : Bool) (msg : String) :
    Bool × List String :=
  if cond then st else (false, st.2 ++ [msg])

/-- One conditional gate of `quality_pass`: `none` models a gate whose guard
(`metric is not None`, plus the positive-EBITDA guard) did not hold, so no
`check` call is made; `some (cond, msg)` models a performed `check`. -/
def gateStep (st : Bool × List String) (g : Option (Bool × String)) :
    Bool × List String :=
  match g with
  | none => st
  | some cm => check st cm.1 cm.2

/-- The seven gates of `quality_pass` in source order (ROIC, ROE, FCF margin,
net-debt/EBITDA, interest coverage, PE, PB), each `none` when its guard in
the Python code skips the `check` call. -/
def gates (m : RulesMetrics) (th : Thresholds) : List (Option (Bool × String)) :=
  [ m.ROIC.map (fun v => (decide (v ≥ th.ROIC_min), "ROIC<" ++ fmtFixed 2 th.ROIC_min)),
    m.ROE.map (fun v => (decide (v ≥ th.ROE_min), "ROE<" ++ fmtFixed 2 th.ROE_min)),
    m.FCFMargin.map (fun v => (decide (v ≥ th.FCFMargin_min), "FCF margin<" ++ fmtFixed 2 th.FCFMargin_min)),
    (match m.EBITDA, m.NetDebt with
     | some e, some nd =>
        if 0 < e then
          some (decide (nd / e ≤ th.NetDebtToEBITDA_max),
                "NetDebt/EBITDA>" ++ fmtFixed 1 th.NetDebtToEBITDA_max)
        else none
     | _, _ => none),
    m.InterestCoverage.map (fun v => (decide (v ≥ th.InterestCoverage_min), "InterestCoverage<" ++ fmtFixed 1 th.InterestCoverage_min)),
    m.PE.map (fun v => (decide (v ≤ th.PE_max), "PE too high")),
    m.PB.map (fun v => (decide (v ≤ th.PB_max), "PB too high")) ]

/-- `quality_pass(metrics, th)`: start from `ok = True, reasons = []` and run
the gates in order. -/
def quality_pass (m : RulesMetrics) (th : Thresholds) : GateVerdict :=
  let st := (gates m th).foldl gateStep (true, [])
  { pass := st.1, reasons := st.2 }

/-- `mos_pass(upside_pct, th)`. -/
def mos_pass (upside_pct : Option ℚ) (th : Thresholds) : GateVerdict :=
  match upside_pct with
  | none => { pass := false, reasons := ["No upside estimate"] }
  | some u =>
      { pass := decide (u ≥ th.MOS_upside_min)
        reasons := if u ≥ th.MOS_upside_min then []
                   else ["Upside<" ++ pyFloatStr th.MOS_upside_min ++ "%"] }

/-- The reason list a single gate contributes: nothing when skipped or
passed, its message when checked and failed. -/
def gateFailMsgs (g : Option (Bool × String)) : List String :=
  match g with
  | none => []
  | some (c, msg) => if c then [] else [msg]

/-! ## Valuation engine (`src/logic/valuation.py`) -/

/-- The keys of the metrics dict that `dcf_lite` reads. -/
structure DcfMetrics where
  FCF : Option ℚ
  SharesOutstanding : Option ℚ
  Price : Option ℚ
  MarketCap : Option ℚ
  RevenueCAGR3Y : Option ℚ
  deriving Repr, DecidableEq

/-- `_clamp(x, lo, hi, default)`. -/
def clampQ (x : Option ℚ) (lo hi default : ℚ) : ℚ :=
  match x with
  | none => default
  | some v => max lo (min hi v)

/-- The assumption dict `{"g": g, "dr": dr, "tg": tg, "years": years}`. -/
structure DcfAssumptions where
  g : ℚ
  dr : ℚ
  tg : ℚ
  years : ℕ
  deriving Repr, DecidableEq

/-- The result dict of `dcf_lite`.  The early-return branch builds a dict
without an `"assumptions"` key; that absent key is `assumptions = none`. -/
structure DcfResult where
  fv_base : Option ℚ
  fv_ps : Option ℚ
  upside_pct : Option ℚ
  assumptions : Option DcfAssumptions
  deriving Repr, DecidableEq

/-- Python truthiness of an `Optional[float]`: `None` and `0.0` are falsy. -/
def truthyQ : Option ℚ → Bool
  | none => false
  | some v => decide (v ≠ 0)

/-- `x is not None and x > 0` after a truthiness guard `x and x > 0`. -/
def posQ : Option ℚ → Bool
  | none => false
  | some v => decide (0 < v)

/-- The projection loop body `f = f * (1 + g); pv += f / ((1 + dr) ** t)`;
state is the pair `(f, pv)`. -/
def projStep (g dr : ℚ) (st : ℚ × ℚ) (t : ℕ) : ℚ × ℚ :=
  let f := st.1 * (1 + g)
  (f, st.2 + f / (1 + dr) ^ t)

/-- `for t in range(1, years + 1): ...` of `dcf_lite`, starting from
`(fcf, 0.0)`; returns the final `(f, pv)`. -/
def project (fcf g dr : ℚ) (years : ℕ) : ℚ × ℚ :=
  (List.range years).foldl (fun st i => projStep g dr st (i + 1)) (fcf, 0)

/-- The growth assumption of `dcf_lite`:
`g = _clamp(metrics.get("RevenueCAGR3Y"), -0.02, 0.06, 0.03)`. -/
def dcf_g (m : DcfMetrics) : ℚ :=
  clampQ m.RevenueCAGR3Y (-2/100) (6/100) (3/100)

/-- The enterprise value `ev = pv + pv_term` computed by `dcf_lite` from a
starting FCF `c` and growth `g` (discount rate 10%, terminal growth 2.5%,
5-year horizon). -/
def dcf_ev (c g : ℚ) : ℚ :=
  let dr : ℚ := 10/100
  let tg : ℚ := 25/1000
  let years : ℕ := 5
  let p := project c g dr years
  let terminal := p.1 * (1 + tg) / (dr - tg)
  p.2 + terminal / (1 + dr) ^ years

/-- `dcf_lite(metrics)`. -/
def dcf_lite (m : DcfMetrics) : DcfResult :=
  let fcf := m.FCF
  let so := m.SharesOutstanding
  let price := m.Price
  let mc := m.MarketCap
  let g := dcf_g m
  let dr : ℚ := 10/100
  let tg : ℚ := 25/1000
  let years : ℕ := 5
  match fcf with
  | none => { fv_base := none, fv_ps := none, upside_pct := none, assumptions := none }
  | some c =>
    if c ≤ 0 then
      { fv_base := none, fv_ps := none, upside_pct := none, assumptions := none }
    else
      let ev := dcf_ev c g
      let fv_ps : Option ℚ :=
        match so with
        | some s => if truthyQ so && decide (0 < s) then some (ev / s) else none
        | none => none
      let upside_pct : Option ℚ :=
        if truthyQ fv_ps && truthyQ price && posQ price then
          some ((fv_ps.getD 0 / price.getD 0 - 1) * 100)
        else if decide (ev ≠ 0) && truthyQ mc && posQ mc then
          some ((ev / mc.getD 0 - 1) * 100)
        else none
      { fv_base := some ev
        fv_ps := fv_ps
        upside_pct := upside_pct
        assumptions := some { g := g, dr := dr, tg := tg, years := years } }

/-! ## Metrics engine (`src/data/fundamentals.py`) -/

/-- A raw cell of an overview dict or statement DataFrame.  `num q` stands
for any value `safe_float` parses to the float `q` (a float, an int, or a
numeric string); `nonNumeric` for any value it rejects (`""`, `"None"`,
`"nan"`, arbitrary non-numeric text, nested objects); `null` for an absent
value / Python `None`. -/
inductive Cell where
  | null
  | num (q : ℝ)
  | nonNumeric

/-- `safe_float(x, default=None)`: the float value of a cell, `none` when the
cell is absent or unparseable. -/
def safe_float : Cell → Option ℝ
  | Cell.num q => some q
  | _ => none

/-- An annual-statement DataFrame, column-oriented: an association list from
column name to the column's cells (all columns the same length, oldest row
first, as produced by `fetch_fundamentals`). -/
def Frame : Type := List (String × List Cell)

/-- `df.empty`: a frame with no columns or no rows. -/
def Frame.isEmpty (df : Frame) : Bool :=
  List.all df (fun c => c.2.isEmpty)

/-- `df[col]` as an optional column (`none` when `col not in df.columns`). -/
def Frame.colSeries (df : Frame) (col : String) : Option (List Cell) :=
  List.lookup col df

/-- The helper `last_float(df, col)`: `safe_float(df[col].iloc[-1])`, or
`None` when the frame is empty or the column is missing. -/
def last_float (df : Frame) (col : String) : Option ℝ :=
  if df.isEmpty then none
  else
    match df.colSeries col with
    | none => none
    | some cells =>
        match cells.getLast? with
        | none => none
        | some c => safe_float c

/-- The series-building loop of `compute_metrics`:
`if not df.empty and col in df.columns: [safe_float(x) for x in df[col]]`,
else the empty list. -/
def col_series_floats (df : Frame) (col : String) : List (Option ℝ) :=
  if df.isEmpty then []
  else
    match df.colSeries col with
    | none => []
    | some cells => cells.map safe_float

/-- Python `xs[-n:]`: the last `n` elements of a list (the whole list when it
is shorter than `n`). -/
def lastN {α : Type} (n : ℕ) (l : List α) : List α :=
  l.drop (l.length - n)

/-- The inner `cagr(series)` of `compute_metrics`: drop the `None` points,
require at least two remaining points and a non-zero start, and return
`(end/start) ** (1/n) - 1` over the `n = len - 1` intervals.  The real
power is `Real.rpow`, which agrees with Python `**` for the non-negative
bases the claims concern. -/
noncomputable def cagr (series : List (Option ℝ)) : Option ℝ :=
  let s := series.filterMap id
  if s.length < 2 then none
  else
    let start := s.headI
    let e := s.getLastD 0
    let n : ℕ := s.length - 1
    if start = 0 then none
    else some ((e / start) ^ ((1 : ℝ) / n) - 1)

/-- The `Fundamentals` dataclass: the overview dict (modelled as the total
lookup `ov.get`, `null` for absent keys) and the four normalized annual
frames. -/
structure Fundamentals where
  overview : String → Cell
  income_annual : Frame
  balance_annual : Frame
  cash_annual : Frame
  earnings_annual : Frame

/-- The metrics dict built by `compute_metrics`.  Numeric entries are
`Option ℝ` (`none` = `None`); the categorical entries pass raw overview
cells through.  `ImpliedMarketCapFromPrice` is set only under
`if price and so:`, an absent key being `none`. -/
structure Metrics where
  SharesOutstanding : Option ℝ
  MarketCap : Option ℝ
  EBITDA : Option ℝ
  PE : Option ℝ
  PS : Option ℝ
  PB : Option ℝ
  DividendYield : Option ℝ
  Sector : Cell
  Industry : Cell
  Name : Cell
  Symbol : Cell
  RevenueCAGR3Y : Option ℝ
  EPSCAGR3Y : Option ℝ
  GrossMargin : Option ℝ
  OpMargin : Option ℝ
  NetMargin : Option ℝ
  FCF : Option ℝ
  FCFMargin : Option ℝ
  NetDebt : Option ℝ
  InterestCoverage : Option ℝ
  ROE : Option ℝ
  ROIC : Option ℝ
  Price : Option ℝ
  ImpliedMarketCapFromPrice : Option ℝ

/-- `compute_metrics(f, price)`, line for line.  Python truthiness guards on
floats (`revenue`, `ebit`, `interestExp`, `price`, `so`, non-membership in
`(None, 0)`) become `≠ 0` tests on present values. -/
noncomputable def compute_metrics (f : Fundamentals) (price : Option ℝ) : Metrics :=
  let ov := f.overview
  let so := safe_float (ov "SharesOutstanding")
  let mc := safe_float (ov "MarketCapitalization")
  let ebitda := safe_float (ov "EBITDA")
  let pe := safe_float (ov "PERatio")
  let ps := safe_float (ov "PriceToSalesRatioTTM")
  let pb := safe_float (ov "PriceToBookRatio")
  let div_yld := safe_float (ov "DividendYield")
  let revs := col_series_floats f.income_annual "totalRevenue"
  let epss := col_series_floats f.earnings_annual "reportedEPS"
  let gross := last_float f.income_annual "grossProfit"
  let revenue := last_float f.income_annual "totalRevenue"
  let opInc := last_float f.income_annual "operatingIncome"
  let netInc := last_float f.income_annual "netIncome"
  let ocf := last_float f.cash_annual "operatingCashflow"
  let capex := last_float f.cash_annual "capitalExpenditures"
  let fcf : Option ℝ :=
    match ocf, capex with
    | some o, some c => some (o - |c|)
    | _, _ => none
  let totalDebt := last_float f.balance_annual "totalDebt"
  let cash := last_float f.balance_annual "cashAndCashEquivalentsAtCarryingValue"
  let netDebt : Option ℝ :=
    match totalDebt, cash with
    | some t, some c => some (t - c)
    | _, _ => none
  let interestExp := last_float f.income_annual "interestExpense"
  let equity := last_float f.balance_annual "totalShareholderEquity"
  let nopat : Option ℝ := opInc.map (fun o => o * (1 - 25/100))
  let invested_cap : Option ℝ :=
    match netDebt, equity with
    | some nd, some e => some (nd + e)
    | _, _ => none
  { SharesOutstanding := so
    MarketCap := mc
    EBITDA := ebitda
    PE := pe
    PS := ps
    PB := pb
    DividendYield := div_yld
    Sector := ov "Sector"
    Industry := ov "Industry"
    Name := ov "Name"
    Symbol := ov "Symbol"
    RevenueCAGR3Y := cagr (lastN 4 revs)
    EPSCAGR3Y := cagr (lastN 4 epss)
    GrossMargin :=
      match gross, revenue with
      | some gr, some r => if r ≠ 0 then some (gr / r) else none
      | _, _ => none
    OpMargin :=
      match opInc, revenue with
      | some o, some r => if r ≠ 0 then some (o / r) else none
      | _, _ => none
    NetMargin :=
      match netInc, revenue with
      | some ni, some r => if r ≠ 0 then some (ni / r) else none
      | _, _ => none
    FCF := fcf
    FCFMargin :=
      match fcf, revenue with
      | some fc, some r => if r ≠ 0 then some (fc / r) else none
      | _, _ => none
    NetDebt := netDebt
    InterestCoverage :=
      match opInc, interestExp with
      | some ebit, some ie => if ebit ≠ 0 ∧ ie ≠ 0 then some (ebit / |ie|) else none
      | _, _ => none
    ROE :=
      match netInc, equity with
      | some ni, some e => if e ≠ 0 then some (ni / e) else none
      | _, _ => none
    ROIC :=
      match nopat, invested_cap with
      | some np, some ic => if ic ≠ 0 then some (np / ic) else none
      | _, _ => none
    Price := price
    ImpliedMarketCapFromPrice :=
      match price, so with
      | some p, some s => if p ≠ 0 ∧ s ≠ 0 then some (p * s) else none
      | _, _ => none }

/-! ## Fundamentals cache (`src/data/fundamentals.py`) and
     Alpha Vantage client (`src/data/alpha_vantage.py`)

A Python value that is about to be `json.dumps`ed (or was `json.loads`ed) is
modelled by `JVal`.  The constructor `tstamp` stands for a
`pandas.Timestamp` object — the value the `fiscalDateEnding` columns hold
after `pd.to_datetime` — which `json.dumps` cannot serialize (it raises
`TypeError`).  On serializable values `json.loads (json.dumps v) = v`, so
the on-disk cache is modelled as a map from symbol to the parsed content of
the symbol's cache file. -/

inductive JVal where
  | null
  | bool (b : Bool)
  | num (q : ℚ)
  | str (s : String)
  | arr (xs : List JVal)
  | obj (fields : List (String × JVal))
  | tstamp (t : ℚ)

/-- `d.get(k)` on a parsed JSON object: the first value bound to `k`. -/
def lookupJ : List (String × JVal) → String → Option JVal
  | [], _ => none
  | (k, v) :: rest, key => if k = key then some v else lookupJ rest key

mutual

/-- Whether `json.dumps` succeeds on a value: it does exactly when no
`pandas.Timestamp` occurs anywhere inside it. -/
def serializable : JVal → Bool
  | JVal.null => true
  | JVal.bool _ => true
  | JVal.num _ => true
  | JVal.str _ => true
  | JVal.arr xs => serializableList xs
  | JVal.obj fs => serializableFields fs
  | JVal.tstamp _ => false

def serializableList : List JVal → Bool
  | [] => true
  | x :: xs => serializable x && serializableList xs

def serializableFields : List (String × JVal) → Bool
  | [] => true
  | f :: fs => serializable f.2 && serializableFields fs

end

/-- The on-disk cache directory: for each symbol, the parsed content of
`fund_<sym>.json` when that file exists and parses, else `none`. -/
def CacheStore : Type := String → Option JVal

/-- The cache directory with no cache files. -/
def emptyStore : CacheStore := fun _ => none

/-- `_TTL = 14 * 24 * 3600` seconds. -/
def TTL : ℚ := 14 * 24 * 3600

/-- `_write_cache(sym, payload)` at wall-clock time `now`: write
`{"_ts": now, "data": payload}` to the symbol's file.  When `json.dumps`
raises (payload not serializable) the exception is swallowed and the store
is unchanged. -/
def write_cache (store : CacheStore) (sym : String) (payload : JVal) (now : ℚ) :
    CacheStore :=
  if serializable payload then
    fun s => if s = sym then
               some (JVal.obj [("_ts", JVal.num now), ("data", payload)])
             else store s
  else store

/-- `_read_cache(sym)` at wall-clock time `now`: `none` when the file is
absent (or unreadable, or not a JSON object, in which case the `.get` call
raises and the exception handler returns `None`); otherwise honour the TTL
`time.time() - obj.get("_ts", 0) <= _TTL` and return `obj.get("data")`. -/
def read_cache (store : CacheStore) (sym : String) (now : ℚ) : Option JVal :=
  match store sym with
  | some (JVal.obj fs) =>
      let ts : ℚ := match lookupJ fs "_ts" with
        | some (JVal.num t) => t
        | _ => 0
      if now - ts ≤ TTL then lookupJ fs "data" else none
  | _ => none

/-- The body of one HTTP response: either `resp.json()` raises `ValueError`
(non-JSON body) or it yields a parsed value. -/
inductive RespBody where
  | invalidJson
  | json (v : JVal)

/-- One attempt inside `_get`'s retry loop: the `session.get` call either
raises a `requests.RequestException` or returns a response. -/
inductive AttemptOutcome where
  | netError
  | response (r : RespBody)

/-- The retry loop of `_get`: `attempts i` is what the network yields on the
`i`-th `session.get` call (0-based); the second argument is the number of
calls already made, the third the remaining attempts out of `max_retries`.
Returns the first response together with the total number of calls made, or
`(none, calls)` when every attempt failed and `AlphaVantageError` is
raised. -/
def get_run (attempts : ℕ → AttemptOutcome) : ℕ → ℕ → Option RespBody × ℕ
  | made, 0 => (none, made)
  | made, remaining + 1 =>
      match attempts made with
      | AttemptOutcome.response r => (some r, made + 1)
      | AttemptOutcome.netError => get_run attempts (made + 1) remaining

/-- Python truthiness of a parsed JSON value (`if q:`). -/
def jTruthy : JVal → Bool
  | JVal.null => false
  | JVal.bool b => b
  | JVal.num q => decide (q ≠ 0)
  | JVal.str s => decide (s ≠ "")
  | JVal.arr xs => !xs.isEmpty
  | JVal.obj fs => !fs.isEmpty
  | JVal.tstamp _ => true

/-- The four-way result of `global_quote`: the `{"__note": ...}` throttle
dict, the Global Quote payload, the `{"__raw": ...}` debug dict, or
`None`. -/
inductive GQResult where
  | note (v : JVal)
  | quote (q : JVal)
  | raw (d : List (String × JVal))
  | nothing

/-- The response handling of `global_quote` after `_get` returns. -/
def global_quote_handle (r : RespBody) : GQResult :=
  match r with
  | RespBody.invalidJson => GQResult.nothing
  | RespBody.json v =>
      match v with
      | JVal.obj fs =>
          match lookupJ fs "Note" with
          | some nv => GQResult.note nv
          | none =>
              match lookupJ fs "Global Quote" with
              | some q => if jTruthy q then GQResult.quote q else GQResult.nothing
              | none => GQResult.raw fs
      | _ => GQResult.nothing

/-- Whether a `global_quote` result is the distinguished throttle dict (the
one carrying the `"__note"` key), the tag callers test for. -/
def GQResult.isThrottled : GQResult → Bool
  | GQResult.note _ => true
  | _ => false

/-- The outcome of `daily_adjusted`: the empty DataFrame returned on every
throttle/error path, or a tidy frame built from the time-series rows (the
renaming/casting/sorting of the rows is irrelevant to the claims and is
carried opaquely). -/
inductive DAOut where
  | emptyFrame
  | frame (rows : List (String × JVal))

/-- The response handling of `daily_adjusted` after `_get` returns. -/
def daily_adjusted_handle (r : RespBody) : DAOut :=
  match r with
  | RespBody.invalidJson => DAOut.emptyFrame
  | RespBody.json v =>
      match v with
      | JVal.obj fs =>
          match lookupJ fs "Time Series (Daily)" with
          | some (JVal.obj ts) =>
              if ts.isEmpty then DAOut.emptyFrame else DAOut.frame ts
          | some _ => DAOut.emptyFrame
          | none => DAOut.emptyFrame
      | _ => DAOut.emptyFrame

/-! ## Theorems: gate evaluator -/

/-- The reasons accumulated by `quality_pass`: the concatenation of the
per-gate contributions, a skipped gate contributing nothing. -/
def qreasons (m : RulesMetrics) (th : Thresholds) : List String :=
  ((gates m th).map gateFailMsgs).flatten

theorem gate_foldl_reasons (l : List (Option (Bool × String)))
    (st : Bool × List String) :
    (l.foldl gateStep st).2 = st.2 ++ (l.map gateFailMsgs).flatten := by
  induction l generalizing st with
  | nil => simp
  | cons g gs ih =>
      rw [List.foldl_cons, ih]
      rcases g with _ | ⟨c, msg⟩
      · simp [gateStep, gateFailMsgs]
      · cases c <;> simp [gateStep, check, gateFailMsgs]

theorem gate_foldl_fst (l : List (Option (Bool × String)))
    (st : Bool × List String) :
    (l.foldl gateStep st).1 = (st.1 && ((l.map gateFailMsgs).flatten).isEmpty) := by
  induction l generalizing st with
  | nil => simp
  | cons g gs ih =>
      rw [List.foldl_cons, ih]
      rcases g with _ | ⟨c, msg⟩
      · simp [gateStep, gateFailMsgs]
      · cases c <;> simp [gateStep, check, gateFailMsgs]

/-- `quality_pass` in closed form: the reasons are the per-gate failure
messages in source order, and the verdict passes exactly when that list is
empty.  In particular a gate whose metric is `None` contributes nothing to
either field. -/
theorem quality_pass_characterization (m : RulesMetrics) (th : Thresholds) :
    quality_pass m th = { pass := (qreasons m th).isEmpty, reasons := qreasons m th } := by
  unfold quality_pass qreasons
  rw [GateVerdict.mk.injEq]
  constructor
  · rw [gate_foldl_fst]
    simp
  · rw [gate_foldl_reasons]
    simp

/-- C5: for every metrics mapping, threshold set and upside value, the
verdicts of `quality_pass` and `mos_pass` have an empty reasons list exactly
when `pass` is true. -/
theorem claim_C5 (m : RulesMetrics) (th : Thresholds) (u : Option ℚ) :
    ((quality_pass m th).reasons = [] ↔ (quality_pass m th).pass = true) ∧
    ((mos_pass u th).reasons = [] ↔ (mos_pass u th).pass = true) := by
  constructor
  · rw [quality_pass_characterization]
    simp [List.isEmpty_iff]
  · rcases u with _ | v
    · simp [mos_pass]
    · by_cases h : v ≥ th.MOS_upside_min <;> simp [mos_pass, h]

theorem fmtFixed_roe_default : fmtFixed 2 ((12 : ℚ)/100) = "0.12" := by
  unfold fmtFixed
  have h : round ((12 : ℚ)/100 * (10 : ℚ) ^ 2) = 12 := by norm_num [round_eq]
  rw [h]
  rfl

/-- C4 counterexample: the margin-of-safety check with a null upside input is
not skipped — it fails the verdict and adds a reason, contradicting the claim
that every gate check with a null input neither fails the verdict nor adds a
reason. -/
theorem claim_C4_counterexample :
    (mos_pass none DEFAULT_THRESHOLDS).pass = false ∧
    (mos_pass none DEFAULT_THRESHOLDS).reasons = ["No upside estimate"] :=
  ⟨rfl, rfl⟩

/-- C4 (amended): every quality gate (ROIC, ROE, FCF margin, net-debt/EBITDA,
interest coverage, PE, PB) whose input metric is null is skipped — the
verdict equals the fold of the per-gate contributions, in which a skipped
gate contributes nothing — and with ROIC=0.15, ROE=0.10, all else null, the
verdict fails with exactly the ROE violation; the separately evaluated
margin-of-safety check, however, fails a null upside with reason
"No upside estimate" instead of skipping it. -/
theorem claim_C4 :
    (∀ (m : RulesMetrics) (th : Thresholds),
        quality_pass m th =
          { pass := (qreasons m th).isEmpty, reasons := qreasons m th }) ∧
    quality_pass
        { ROIC := some (15/100), ROE := some (10/100), FCFMargin := none,
          EBITDA := none, NetDebt := none, InterestCoverage := none,
          PE := none, PB := none } DEFAULT_THRESHOLDS =
      { pass := false, reasons := ["ROE<0.12"] } ∧
    (∀ th : Thresholds, mos_pass none th =
        { pass := false, reasons := ["No upside estimate"] }) := by
  refine ⟨quality_pass_characterization, ?_, fun th => rfl⟩
  rw [quality_pass_characterization]
  simp [qreasons, gates, gateFailMsgs, DEFAULT_THRESHOLDS, fmtFixed_roe_default]
  norm_num

/-- C10: a metrics mapping in which every quality metric is null passes
`quality_pass` with an empty reasons list under any thresholds, while the
separately evaluated margin-of-safety check still fails when no upside
estimate exists. -/
theorem claim_C10 :
    (∀ th : Thresholds,
        quality_pass nullRulesMetrics th = { pass := true, reasons := [] }) ∧
    (mos_pass none DEFAULT_THRESHOLDS).pass = false ∧
    (mos_pass none DEFAULT_THRESHOLDS).reasons = ["No upside estimate"] :=
  ⟨fun _ => rfl, rfl, rfl⟩

/-! ## Theorems: valuation engine -/

theorem project_zero (c g dr : ℚ) : project c g dr 0 = (c, 0) := rfl

theorem project_succ (c g dr : ℚ) (n : ℕ) :
    project c g dr (n + 1) = projStep g dr (project c g dr n) (n + 1) := by
  simp [project, List.range_succ]

theorem project_pos (c g dr : ℚ) (hc : 0 < c) (hg : 0 < 1 + g)
    (hdr : 0 < 1 + dr) (n : ℕ) :
    0 < (project c g dr n).1 ∧ 0 ≤ (project c g dr n).2 := by
  induction n with
  | zero => exact ⟨hc, le_refl 0⟩
  | succ k ih =>
      rw [project_succ]
      obtain ⟨hf, hpv⟩ := ih
      constructor
      · exact mul_pos hf hg
      · have hpow : 0 < (1 + dr) ^ (k + 1) := pow_pos hdr (k + 1)
        have hdiv : 0 < (project c g dr k).1 * (1 + g) / (1 + dr) ^ (k + 1) :=
          div_pos (mul_pos hf hg) hpow
        simp only [projStep]
        linarith

/-- For a positive starting FCF and a growth rate above −100% the
enterprise value computed by `dcf_lite` is strictly positive. -/
theorem dcf_ev_pos (c g : ℚ) (hc : 0 < c) (hg : 0 < 1 + g) : 0 < dcf_ev c g := by
  unfold dcf_ev
  obtain ⟨hf, hpv⟩ := project_pos c g (10/100) hc hg (by norm_num) 5
  have hterm : 0 < (project c g (10/100) 5).1 * (1 + 25/1000) / (10/100 - 25/1000) :=
    div_pos (mul_pos hf (by norm_num)) (by norm_num)
  have hpow : 0 < (1 + (10 : ℚ)/100) ^ 5 := by norm_num
  have := div_pos hterm hpow
  simp only []
  linarith

/-- The clamp `[−2%, +6%]` on the growth assumption. -/
theorem dcf_g_bounds (m : DcfMetrics) :
    -2/100 ≤ dcf_g m ∧ dcf_g m ≤ 6/100 := by
  unfold dcf_g clampQ
  rcases m.RevenueCAGR3Y with _ | v
  · norm_num
  · constructor
    · exact le_max_left _ _
    · exact max_le (by norm_num) (min_le_left _ _)

theorem dcf_g_growth_pos (m : DcfMetrics) : 0 < 1 + dcf_g m := by
  have h := (dcf_g_bounds m).1
  linarith

/-- C2: whenever trailing FCF is absent or non-positive, `dcf_lite` returns
a result whose `fv_base`, `fv_ps` and `upside_pct` are all null (and, being
a total function, raises no exception). -/
theorem claim_C2 (m : DcfMetrics)
    (h : m.FCF = none ∨ ∃ c, m.FCF = some c ∧ c ≤ 0) :
    (dcf_lite m).fv_base = none ∧ (dcf_lite m).fv_ps = none ∧
    (dcf_lite m).upside_pct = none := by
  rcases h with h | ⟨c, hc, hle⟩
  · simp [dcf_lite, h]
  · simp [dcf_lite, hc, if_pos hle]

/-- C2 witness: the spec example `dcf({FCF: -5, ...})` yields all-null
fields. -/
theorem claim_C2_witness :
    (dcf_lite ⟨some (-5), none, none, none, none⟩).fv_base = none ∧
    (dcf_lite ⟨some (-5), none, none, none, none⟩).fv_ps = none ∧
    (dcf_lite ⟨some (-5), none, none, none, none⟩).upside_pct = none :=
  claim_C2 _ (Or.inr ⟨-5, rfl, by norm_num⟩)

/-- C7 counterexample: on an input with no trailing FCF the early-return
dict of `dcf_lite` has no `"assumptions"` key at all, so the result does
not carry the assumption set. -/
theorem claim_C7_counterexample :
    (dcf_lite ⟨none, none, none, none, none⟩).assumptions = none := rfl

/-- C7 (amended): the result of `dcf_lite` carries the assumption set used
(g clamped from revenue CAGR, dr = 10%, tg = 2.5%, 5-year horizon) exactly
when trailing FCF is present and strictly positive; the early-return result
for missing or non-positive FCF carries no assumptions. -/
theorem claim_C7 (m : DcfMetrics) :
    ((∃ c, m.FCF = some c ∧ 0 < c) →
      (dcf_lite m).assumptions =
        some { g := dcf_g m, dr := 10/100, tg := 25/1000, years := 5 }) ∧
    ((m.FCF = none ∨ ∃ c, m.FCF = some c ∧ c ≤ 0) →
      (dcf_lite m).assumptions = none) := by
  constructor
  · rintro ⟨c, hc, hpos⟩
    simp [dcf_lite, hc, if_neg (not_le.mpr hpos)]
  · rintro (h | ⟨c, hc, hle⟩)
    · simp [dcf_lite, h]
    · simp [dcf_lite, hc, if_pos hle]

/-- C7 witness: a positive-FCF input carries the default assumption set. -/
theorem claim_C7_witness :
    (dcf_lite ⟨some 100, none, none, none, none⟩).assumptions =
      some { g := dcf_g ⟨some 100, none, none, none, none⟩,
             dr := 10/100, tg := 25/1000, years := 5 } :=
  (claim_C7 _).1 ⟨100, rfl, by norm_num⟩

/-- C6 counterexample: with FCF = 100, 10 shares, market cap 50 and a
missing price, the fair value per share is available, yet `dcf_lite` still
takes the enterprise-level fallback and returns a non-null upside — whereas
the claim (fallback exactly when fair value per share is unavailable,
otherwise null) requires a null upside here. -/
theorem claim_C6_counterexample :
    (dcf_lite ⟨some 100, some 10, none, some 50, none⟩).fv_ps.isSome = true ∧
    DcfMetrics.Price ⟨some 100, some 10, none, some 50, none⟩ = none ∧
    (dcf_lite ⟨some 100, some 10, none, some 50, none⟩).upside_pct.isSome = true := by
  have hev : 0 < dcf_ev 100 (3/100) :=
    dcf_ev_pos 100 (3/100) (by norm_num) (by norm_num)
  have h100 : ¬ (100 : ℚ) ≤ 0 := by norm_num
  have hg : dcf_g ⟨some 100, some 10, none, some 50, none⟩ = 3/100 := rfl
  refine ⟨?_, rfl, ?_⟩ <;>
    simp [dcf_lite, h100, hg, truthyQ, posQ, hev.ne']

/-- C6 (amended): for positive trailing FCF, the upside is
`(fv_ps / price − 1) × 100` when the share count is known and positive and
the price is known and positive; when that per-share branch does not apply
(fair value per share unavailable, or price unavailable, zero or negative),
the enterprise-level fallback `(ev / market_cap − 1) × 100` is taken as soon
as the market cap is known and positive (the enterprise value being
automatically positive); and the upside is null only when neither branch
applies. -/
theorem claim_C6 (m : DcfMetrics) (c : ℚ) (hc : m.FCF = some c)
    (hpos : 0 < c) :
    (∀ s p, m.SharesOutstanding = some s → 0 < s → m.Price = some p → 0 < p →
        (dcf_lite m).upside_pct =
          some ((dcf_ev c (dcf_g m) / s / p - 1) * 100)) ∧
    (∀ k, (truthyQ (dcf_lite m).fv_ps && truthyQ m.Price && posQ m.Price) = false →
        m.MarketCap = some k → 0 < k →
        (dcf_lite m).upside_pct = some ((dcf_ev c (dcf_g m) / k - 1) * 100)) ∧
    ((truthyQ (dcf_lite m).fv_ps && truthyQ m.Price && posQ m.Price) = false →
        (truthyQ m.MarketCap && posQ m.MarketCap) = false →
        (dcf_lite m).upside_pct = none) := by
  have hev : 0 < dcf_ev c (dcf_g m) :=
    dcf_ev_pos c (dcf_g m) hpos (dcf_g_growth_pos m)
  refine ⟨?_, ?_, ?_⟩
  · intro s p hs hspos hp hppos
    have hfv : (0 : ℚ) < dcf_ev c (dcf_g m) / s := div_pos hev hspos
    simp [dcf_lite, hc, if_neg (not_le.mpr hpos), hs, hp, truthyQ, posQ,
          hspos, hspos.ne', hppos, hppos.ne', hfv.ne']
  · intro k hskip hk hkpos
    have hfv := hskip
    simp only [dcf_lite, hc] at hfv ⊢
    rw [if_neg (not_le.mpr hpos)] at hfv ⊢
    simp only [hk]
    rw [hfv]
    simp [truthyQ, posQ, hev.ne', hkpos, hkpos.ne']
  · intro hskip hmc
    simp only [dcf_lite, hc] at hskip ⊢
    rw [if_neg (not_le.mpr hpos)] at hskip ⊢
    rw [hskip]
    rcases hmcv : m.MarketCap with _ | k
    · simp [hmcv, truthyQ, posQ]
    · rw [hmcv] at hmc
      simp only [truthyQ, posQ, Bool.and_eq_false_iff, decide_eq_false_iff_not,
                 not_not, not_lt] at hmc
      rcases hmc with h0 | hle
      · simp [truthyQ, posQ, h0]
      · simp [truthyQ, posQ, not_lt.mpr hle]

/-- C6 witness: a fully-populated metrics mapping takes the per-share
branch. -/
theorem claim_C6_witness :
    (dcf_lite ⟨some 100, some 10, some 20, some 50, none⟩).upside_pct =
      some ((dcf_ev 100 (dcf_g ⟨some 100, some 10, some 20, some 50, none⟩)
              / 10 / 20 - 1) * 100) :=
  (claim_C6 ⟨some 100, some 10, some 20, some 50, none⟩ 100 rfl (by norm_num)).1
    10 20 rfl (by norm_num) rfl (by norm_num)

/-! ## Theorems: metrics engine -/

/-- C1: the CAGR used for RevenueCAGR3Y and EPSCAGR3Y is taken over the most
recent 4 periods (the last-4 slice, so 3 intervals) and equals
`(end/start)^(1/n) − 1`; it is null whenever fewer than 2 non-null points
remain or the starting value is zero (a null start having been dropped with
the other null points); `CAGR([100, 110, 121, 133.1]) = 10%` exactly in the
real-number model, and `CAGR([0, 50])` and `CAGR([50])` are null. -/
theorem claim_C1 :
    (∀ series : List (Option ℝ),
        (series.filterMap id).length < 2 → cagr series = none) ∧
    (∀ series : List (Option ℝ),
        (series.filterMap id).headI = 0 → cagr series = none) ∧
    cagr [some 100, some 110, some 121, some (1331/10)] = some (1/10) ∧
    cagr [some 0, some 50] = none ∧
    cagr [some 50] = none ∧
    (∀ (f : Fundamentals) (price : Option ℝ),
        (compute_metrics f price).RevenueCAGR3Y =
          cagr (lastN 4 (col_series_floats f.income_annual "totalRevenue")) ∧
        (compute_metrics f price).EPSCAGR3Y =
          cagr (lastN 4 (col_series_floats f.earnings_annual "reportedEPS"))) ∧
    (∀ (pre post : List (Option ℝ)),
        post.length = 4 → lastN 4 (pre ++ post) = post) := by
  refine ⟨?_, ?_, ?_, ?_, ?_, fun f price => ⟨rfl, rfl⟩, ?_⟩
  · intro series h
    simp only [cagr]
    rw [if_pos h]
  · intro series h
    by_cases hl : (series.filterMap id).length < 2
    · simp only [cagr]
      rw [if_pos hl]
    · simp only [cagr]
      rw [if_neg hl, if_pos h]
  · have key : ((1331 : ℝ)/1000) ^ ((1 : ℝ)/3) - 1 = 1/10 := by
      have hb : ((1331 : ℝ)/1000) = (11/10 : ℝ) ^ (3 : ℕ) := by norm_num
      rw [hb, ← Real.rpow_natCast (11/10 : ℝ) 3,
          ← Real.rpow_mul (by norm_num : (0:ℝ) ≤ 11/10)]
      norm_num
    simp only [cagr, List.filterMap]
    norm_num [List.headI, List.getLastD]
    exact key
  · simp only [cagr]
    norm_num [List.filterMap, List.headI]
  · simp only [cagr]
    norm_num [List.filterMap]
  · intro pre post h
    unfold lastN
    rw [List.length_append, h, Nat.add_sub_cancel, List.drop_left]

/-- C1 witness: the null conditions applied at concrete inputs. -/
theorem claim_C1_witness :
    cagr [some (3 : ℝ), none] = none ∧
    lastN 4 ([some (7 : ℝ)] ++ [some 1, some 2, some 3, some 4]) =
      [some 1, some 2, some 3, some 4] :=
  ⟨claim_C1.1 [some (3 : ℝ), none] (by simp),
   claim_C1.2.2.2.2.2.2 [some (7 : ℝ)] [some 1, some 2, some 3, some 4] rfl⟩

theorem cm_GrossMargin (f : Fundamentals) (price : Option ℝ) :
    (compute_metrics f price).GrossMargin =
      match last_float f.income_annual "grossProfit",
            last_float f.income_annual "totalRevenue" with
      | some gr, some r => if r ≠ 0 then some (gr / r) else none
      | _, _ => none := rfl

theorem cm_OpMargin (f : Fundamentals) (price : Option ℝ) :
    (compute_metrics f price).OpMargin =
      match last_float f.income_annual "operatingIncome",
            last_float f.income_annual "totalRevenue" with
      | some o, some r => if r ≠ 0 then some (o / r) else none
      | _, _ => none := rfl

theorem cm_NetMargin (f : Fundamentals) (price : Option ℝ) :
    (compute_metrics f price).NetMargin =
      match last_float f.income_annual "netIncome",
            last_float f.income_annual "totalRevenue" with
      | some ni, some r => if r ≠ 0 then some (ni / r) else none
      | _, _ => none := rfl

theorem cm_FCF (f : Fundamentals) (price : Option ℝ) :
    (compute_metrics f price).FCF =
      match last_float f.cash_annual "operatingCashflow",
            last_float f.cash_annual "capitalExpenditures" with
      | some o, some c => some (o - |c|)
      | _, _ => none := rfl

theorem cm_FCFMargin (f : Fundamentals) (price : Option ℝ) :
    (compute_metrics f price).FCFMargin =
      match (match last_float f.cash_annual "operatingCashflow",
                   last_float f.cash_annual "capitalExpenditures" with
             | some o, some c => some (o - |c|)
             | _, _ => none),
            last_float f.income_annual "totalRevenue" with
      | some fc, some r => if r ≠ 0 then some (fc / r) else none
      | _, _ => none := rfl

theorem cm_NetDebt (f : Fundamentals) (price : Option ℝ) :
    (compute_metrics f price).NetDebt =
      match last_float f.balance_annual "totalDebt",
            last_float f.balance_annual "cashAndCashEquivalentsAtCarryingValue" with
      | some t, some c => some (t - c)
      | _, _ => none := rfl

theorem cm_InterestCoverage (f : Fundamentals) (price : Option ℝ) :
    (compute_metrics f price).InterestCoverage =
      match last_float f.income_annual "operatingIncome",
            last_float f.income_annual "interestExpense" with
      | some ebit, some ie => if ebit ≠ 0 ∧ ie ≠ 0 then some (ebit / |ie|) else none
      | _, _ => none := rfl

theorem cm_ROE (f : Fundamentals) (price : Option ℝ) :
    (compute_metrics f price).ROE =
      match last_float f.income_annual "netIncome",
            last_float f.balance_annual "totalShareholderEquity" with
      | some ni, some e => if e ≠ 0 then some (ni / e) else none
      | _, _ => none := rfl

theorem cm_ROIC (f : Fundamentals) (price : Option ℝ) :
    (compute_metrics f price).ROIC =
      match (last_float f.income_annual "operatingIncome").map
              (fun o => o * (1 - 25/100)),
            (match (match last_float f.balance_annual "totalDebt",
                          last_float f.balance_annual "cashAndCashEquivalentsAtCarryingValue" with
                    | some t, some c => some (t - c)
                    | _, _ => none),
                   last_float f.balance_annual "totalShareholderEquity" with
             | some nd, some e => some (nd + e)
             | _, _ => none) with
      | some np, some ic => if ic ≠ 0 then some (np / ic) else none
      | _, _ => none := rfl

theorem cm_ImpliedMarketCap (f : Fundamentals) (price : Option ℝ) :
    (compute_metrics f price).ImpliedMarketCapFromPrice =
      match price, safe_float (f.overview "SharesOutstanding") with
      | some p, some s => if p ≠ 0 ∧ s ≠ 0 then some (p * s) else none
      | _, _ => none := rfl

theorem cm_RevenueCAGR3Y (f : Fundamentals) (price : Option ℝ) :
    (compute_metrics f price).RevenueCAGR3Y =
      cagr (lastN 4 (col_series_floats f.income_annual "totalRevenue")) := rfl

theorem cm_EPSCAGR3Y (f : Fundamentals) (price : Option ℝ) :
    (compute_metrics f price).EPSCAGR3Y =
      cagr (lastN 4 (col_series_floats f.earnings_annual "reportedEPS")) := rfl

/-- C9: every derived metric of `compute_metrics` is a nullable number
(`Option ℝ` in this model), and each is null — never zero or a default —
whenever any of its required inputs is missing: the margins need their
numerator and the revenue, FCF needs operating cash flow and capex,
FCF margin additionally the revenue, net debt needs total debt and cash,
interest coverage needs operating income and interest expense, ROE needs
net income and equity, ROIC needs operating income, net debt and equity,
the implied market cap needs price and share count, and the CAGRs are null
when their statement column yields no series. -/
theorem claim_C9 (f : Fundamentals) (price : Option ℝ) :
    ((last_float f.income_annual "grossProfit" = none ∨
      last_float f.income_annual "totalRevenue" = none) →
        (compute_metrics f price).GrossMargin = none) ∧
    ((last_float f.income_annual "operatingIncome" = none ∨
      last_float f.income_annual "totalRevenue" = none) →
        (compute_metrics f price).OpMargin = none) ∧
    ((last_float f.income_annual "netIncome" = none ∨
      last_float f.income_annual "totalRevenue" = none) →
        (compute_metrics f price).NetMargin = none) ∧
    ((last_float f.cash_annual "operatingCashflow" = none ∨
      last_float f.cash_annual "capitalExpenditures" = none) →
        (compute_metrics f price).FCF = none) ∧
    ((last_float f.cash_annual "operatingCashflow" = none ∨
      last_float f.cash_annual "capitalExpenditures" = none ∨
      last_float f.income_annual "totalRevenue" = none) →
        (compute_metrics f price).FCFMargin = none) ∧
    ((last_float f.balance_annual "totalDebt" = none ∨
      last_float f.balance_annual "cashAndCashEquivalentsAtCarryingValue" = none) →
        (compute_metrics f price).NetDebt = none) ∧
    ((last_float f.income_annual "operatingIncome" = none ∨
      last_float f.income_annual "interestExpense" = none) →
        (compute_metrics f price).InterestCoverage = none) ∧
    ((last_float f.income_annual "netIncome" = none ∨
      last_float f.balance_annual "totalShareholderEquity" = none) →
        (compute_metrics f price).ROE = none) ∧
    ((last_float f.income_annual "operatingIncome" = none ∨
      last_float f.balance_annual "totalDebt" = none ∨
      last_float f.balance_annual "cashAndCashEquivalentsAtCarryingValue" = none ∨
      last_float f.balance_annual "totalShareholderEquity" = none) →
        (compute_metrics f price).ROIC = none) ∧
    ((price = none ∨ safe_float (f.overview "SharesOutstanding") = none) →
        (compute_metrics f price).ImpliedMarketCapFromPrice = none) ∧
    (col_series_floats f.income_annual "totalRevenue" = [] →
        (compute_metrics f price).RevenueCAGR3Y = none) ∧
    (col_series_floats f.earnings_annual "reportedEPS" = [] →
        (compute_metrics f price).EPSCAGR3Y = none) := by
  refine ⟨?_, ?_, ?_, ?_, ?_, ?_, ?_, ?_, ?_, ?_, ?_, ?_⟩
  · intro h
    rw [cm_GrossMargin]
    rcases h1 : last_float f.income_annual "grossProfit" with _ | gv <;>
      rcases h2 : last_float f.income_annual "totalRevenue" with _ | rv <;>
        simp_all
  · intro h
    rw [cm_OpMargin]
    rcases h1 : last_float f.income_annual "operatingIncome" with _ | ov <;>
      rcases h2 : last_float f.income_annual "totalRevenue" with _ | rv <;>
        simp_all
  · intro h
    rw [cm_NetMargin]
    rcases h1 : last_float f.income_annual "netIncome" with _ | nv <;>
      rcases h2 : last_float f.income_annual "totalRevenue" with _ | rv <;>
        simp_all
  · intro h
    rw [cm_FCF]
    rcases h1 : last_float f.cash_annual "operatingCashflow" with _ | ov <;>
      rcases h2 : last_float f.cash_annual "capitalExpenditures" with _ | cv <;>
        simp_all
  · intro h
    rw [cm_FCFMargin]
    rcases h1 : last_float f.cash_annual "operatingCashflow" with _ | ov <;>
      rcases h2 : last_float f.cash_annual "capitalExpenditures" with _ | cv <;>
        rcases h3 : last_float f.income_annual "totalRevenue" with _ | rv <;>
          simp_all
  · intro h
    rw [cm_NetDebt]
    rcases h1 : last_float f.balance_annual "totalDebt" with _ | tv <;>
      rcases h2 : last_float f.balance_annual "cashAndCashEquivalentsAtCarryingValue" with _ | cv <;>
        simp_all
  · intro h
    rw [cm_InterestCoverage]
    rcases h1 : last_float f.income_annual "operatingIncome" with _ | ov <;>
      rcases h2 : last_float f.income_annual "interestExpense" with _ | iv <;>
        simp_all
  · intro h
    rw [cm_ROE]
    rcases h1 : last_float f.income_annual "netIncome" with _ | nv <;>
      rcases h2 : last_float f.balance_annual "totalShareholderEquity" with _ | ev <;>
        simp_all
  · intro h
    rw [cm_ROIC]
    rcases h1 : last_float f.income_annual "operatingIncome" with _ | ov <;>
      rcases h2 : last_float f.balance_annual "totalDebt" with _ | tv <;>
        rcases h3 : last_float f.balance_annual "cashAndCashEquivalentsAtCarryingValue" with _ | cv <;>
          rcases h4 : last_float f.balance_annual "totalShareholderEquity" with _ | ev <;>
            simp_all
  · intro h
    rw [cm_ImpliedMarketCap]
    rcases h1 : price with _ | pv <;>
      rcases h2 : safe_float (f.overview "SharesOutstanding") with _ | sv <;>
        simp_all
  · intro h
    rw [cm_RevenueCAGR3Y, h]
    rfl
  · intro h
    rw [cm_EPSCAGR3Y, h]
    rfl

/-- C9 witness: a bundle with empty statement frames and an empty overview
yields null for every derived metric. -/
theorem claim_C9_witness :
    (compute_metrics ⟨fun _ => Cell.null, [], [], [], []⟩ none).GrossMargin = none ∧
    (compute_metrics ⟨fun _ => Cell.null, [], [], [], []⟩ none).FCF = none ∧
    (compute_metrics ⟨fun _ => Cell.null, [], [], [], []⟩ none).ROIC = none ∧
    (compute_metrics ⟨fun _ => Cell.null, [], [], [], []⟩ none).ImpliedMarketCapFromPrice = none ∧
    (compute_metrics ⟨fun _ => Cell.null, [], [], [], []⟩ none).RevenueCAGR3Y = none :=
  ⟨(claim_C9 ⟨fun _ => Cell.null, [], [], [], []⟩ none).1 (Or.inl rfl),
   (claim_C9 ⟨fun _ => Cell.null, [], [], [], []⟩ none).2.2.2.1 (Or.inl rfl),
   (claim_C9 ⟨fun _ => Cell.null, [], [], [], []⟩ none).2.2.2.2.2.2.2.2.1 (Or.inl rfl),
   (claim_C9 ⟨fun _ => Cell.null, [], [], [], []⟩ none).2.2.2.2.2.2.2.2.2.1 (Or.inl rfl),
   (claim_C9 ⟨fun _ => Cell.null, [], [], [], []⟩ none).2.2.2.2.2.2.2.2.2.2.1 rfl⟩

/-! ## Theorems: cache and fetcher -/

/-- A serializable cached payload: the cache write goes through and reads
back within TTL. -/
theorem cache_roundtrip_within_ttl (store : CacheStore) (sym : String)
    (payload : JVal) (t d : ℚ) (hser : serializable payload = true)
    (hd : d ≤ TTL) :
    read_cache (write_cache store sym payload t) sym (t + d) = some payload := by
  simp only [write_cache, hser, if_true, read_cache, if_pos rfl, lookupJ]
  have : t + d - t ≤ TTL := by linarith
  rw [if_pos this]
  simp [lookupJ]

/-- A serializable cached payload read after TTL expiry is a miss. -/
theorem cache_expired_miss (store : CacheStore) (sym : String)
    (payload : JVal) (t d : ℚ) (hser : serializable payload = true)
    (hd : TTL < d) :
    read_cache (write_cache store sym payload t) sym (t + d) = none := by
  simp only [write_cache, hser, if_true, read_cache, if_pos rfl, lookupJ]
  have : ¬ (t + d - t ≤ TTL) := by
    intro hle
    have : d ≤ TTL := by linarith
    linarith
  rw [if_neg this]

/-- C3, evaluated on the code: a payload whose statement frames contain a
`pandas.Timestamp` in `fiscalDateEnding` — which every bundle with at least
one dated annual report has after `pd.to_datetime` — makes `json.dumps`
raise inside `_write_cache`; the exception is swallowed, no cache file is
written, and the immediate re-read is a miss rather than the original
bundle.  A fully serializable payload, in contrast, does round-trip within
the 14-day TTL and expires after it. -/
theorem claim_C3 :
    read_cache
        (write_cache emptyStore "MSFT"
          (JVal.obj [("income_annual",
              JVal.obj [("fiscalDateEnding", JVal.arr [JVal.tstamp 17000])])])
          1000)
        "MSFT" 1000 = none ∧
    read_cache
        (write_cache emptyStore "AAPL"
          (JVal.obj [("overview", JVal.obj [("Name", JVal.str "ACME")]),
                     ("income_annual", JVal.obj [])])
          1000)
        "AAPL" (1000 + TTL) =
      some (JVal.obj [("overview", JVal.obj [("Name", JVal.str "ACME")]),
                      ("income_annual", JVal.obj [])]) ∧
    read_cache
        (write_cache emptyStore "AAPL"
          (JVal.obj [("overview", JVal.obj [("Name", JVal.str "ACME")]),
                     ("income_annual", JVal.obj [])])
          1000)
        "AAPL" (1000 + TTL + 1) = none := by
  refine ⟨?_, ?_, ?_⟩
  · have hser : serializable
        (JVal.obj [("income_annual",
            JVal.obj [("fiscalDateEnding", JVal.arr [JVal.tstamp 17000])])]) = false := rfl
    simp [write_cache, hser, read_cache, emptyStore]
  · have h := cache_roundtrip_within_ttl emptyStore "AAPL"
      (JVal.obj [("overview", JVal.obj [("Name", JVal.str "ACME")]),
                 ("income_annual", JVal.obj [])]) 1000 TTL rfl (le_refl TTL)
    exact h
  · have h := cache_expired_miss emptyStore "AAPL"
      (JVal.obj [("overview", JVal.obj [("Name", JVal.str "ACME")]),
                 ("income_annual", JVal.obj [])]) 1000 (TTL + 1) rfl
      (by norm_num)
    rw [← add_assoc] at h
    exact h

/-- C8 counterexample: `daily_adjusted` maps a throttle `Note` payload to
the empty DataFrame — the very same result it returns for an unparseable
body and for a well-formed response whose time series is empty — so its
throttled outcome is not distinguishable from failure or from an empty
success. -/
theorem claim_C8_counterexample :
    daily_adjusted_handle
        (RespBody.json (JVal.obj [("Note", JVal.str "rate limit")])) =
      DAOut.emptyFrame ∧
    daily_adjusted_handle RespBody.invalidJson = DAOut.emptyFrame ∧
    daily_adjusted_handle
        (RespBody.json (JVal.obj [("Time Series (Daily)", JVal.obj [])])) =
      DAOut.emptyFrame := by
  refine ⟨?_, rfl, ?_⟩ <;> simp [daily_adjusted_handle, lookupJ]

/-- C8 (amended): the retry loop of `_get` retries only on network
exceptions, so any well-formed response — a throttle `Note` payload
included — is returned after exactly one call; `global_quote` surfaces a
`Note` payload as the distinguished `{"__note": ...}` result, distinct from
a quote and from `None`; `daily_adjusted`, however, folds the `Note` case
into the empty DataFrame it also returns for missing data. -/
theorem claim_C8 :
    (∀ (attempts : ℕ → AttemptOutcome) (n : ℕ) (r : RespBody),
        1 ≤ n → attempts 0 = AttemptOutcome.response r →
        get_run attempts 0 n = (some r, 1)) ∧
    (∀ (fs : List (String × JVal)) (v : JVal),
        lookupJ fs "Note" = some v →
        global_quote_handle (RespBody.json (JVal.obj fs)) = GQResult.note v) ∧
    (∀ v, GQResult.isThrottled (GQResult.note v) = true) ∧
    (∀ q, GQResult.isThrottled (GQResult.quote q) = false) ∧
    GQResult.isThrottled GQResult.nothing = false ∧
    (∀ fs, lookupJ fs "Time Series (Daily)" = none →
        daily_adjusted_handle (RespBody.json (JVal.obj fs)) = DAOut.emptyFrame) := by
  refine ⟨?_, ?_, fun v => rfl, fun q => rfl, rfl, ?_⟩
  · intro attempts n r hn h0
    match n, hn with
    | (k + 1), _ => simp [get_run, h0]
  · intro fs v h
    simp [global_quote_handle, h]
  · intro fs h
    simp [daily_adjusted_handle, h]

/-- C8 witness: a first-call `Note` response is returned after one call even
with 3 retries budgeted, and `global_quote` tags it as `__note`. -/
theorem claim_C8_witness :
    get_run
        (fun _ => AttemptOutcome.response
          (RespBody.json (JVal.obj [("Note", JVal.str "call limit")]))) 0 3 =
      (some (RespBody.json (JVal.obj [("Note", JVal.str "call limit")])), 1) ∧
    global_quote_handle
        (RespBody.json (JVal.obj [("Note", JVal.str "call limit")])) =
      GQResult.note (JVal.str "call limit") :=
  ⟨claim_C8.1 _ 3 _ (by norm_num) rfl, claim_C8.2.1 _ _ rfl⟩

end HedgeFund
